import Mathlib

/-!
Shallow embedding of `airflow/utils/session.py` (session lifecycle helpers
`create_session`, `find_session_idx`, `provide_session`, `create_global_lock`)
and of the `ValidJson` validator from `airflow/www/validators.py`,
together with theorems settling the specification claims about them.

Sessions (SQLAlchemy) and the JSON parser (`json.loads`) are external
collaborators of the repository; they are modelled by explicit environment
parameters (`SessionEnv`) and by a JSON grammar parser (`json_loads`).
-/

/-- The observable calls `create_session` makes on its session, in order:
`settings.Session()` (newSession), `session.commit()`, `session.rollback()`,
`session.close()`. -/
inductive SEvent where
  | newSession
  | commit
  | rollback
  | close
deriving DecidableEq, Repr

/-- Environment model of the external SQLAlchemy session: the value
`settings.Session()` returns, and whether each teardown primitive raises
(`some e` means the call raises exception `e`; `none` means it succeeds).
The source calls these primitives without guarding them, so their
failure behaviour is part of the observable semantics. -/
structure SessionEnv (V E : Type) where
  mkSession : V
  commitFails : Option E
  rollbackFails : Option E
  closeFails : Option E

/-- Embedding of `create_session` (src/airflow/utils/session.py lines 26-37),
following Python control flow exactly:

```
session = settings.Session()
try:
    yield session          -- run the block; may raise
    session.commit()       -- may raise
except Exception:
    session.rollback()     -- may raise; if it does, ITS exception propagates
    raise                  -- re-raise the caught exception
finally:
    session.close()        -- may raise; if it does, ITS exception propagates
```

Returns the ordered list of session calls issued and the outcome the caller
observes (`Except.ok v` for a normal return, `Except.error e` for a raised
exception). A failing call is still recorded as issued. -/
def create_session {V E A : Type} (env : SessionEnv V E) (block : V → Except E A) :
    List SEvent × Except E A :=
  let inner : List SEvent × Except E A :=
    match block env.mkSession with
    | Except.ok v =>
      match env.commitFails with
      | none => ([SEvent.commit], Except.ok v)
      | some ec => ([SEvent.commit, SEvent.rollback], Except.error (env.rollbackFails.getD ec))
    | Except.error eb => ([SEvent.rollback], Except.error (env.rollbackFails.getD eb))
  match env.closeFails with
  | none => (SEvent.newSession :: inner.1 ++ [SEvent.close], inner.2)
  | some ecl => (SEvent.newSession :: inner.1 ++ [SEvent.close], Except.error ecl)

/-- C1: inside a `create_session` scope with a well-behaved session
(commit, rollback and close do not themselves raise): if the block completes
normally the session is committed and then closed with no rollback, and if
the block raises `e` the session is rolled back and then closed and the
caller observes `e` unchanged. -/
theorem create_session_commit_or_rollback {V E A : Type} (env : SessionEnv V E)
    (block : V → Except E A)
    (hc : env.commitFails = none) (hr : env.rollbackFails = none)
    (hcl : env.closeFails = none) :
    create_session env block =
      match block env.mkSession with
      | Except.ok v =>
          ([SEvent.newSession, SEvent.commit, SEvent.close], Except.ok v)
      | Except.error e =>
          ([SEvent.newSession, SEvent.rollback, SEvent.close], Except.error e) := by
  unfold create_session
  rw [hc, hr, hcl]
  cases block env.mkSession <;> rfl

/-- Witness for C1: a concrete well-behaved environment, evaluated on a
normally-returning block and on a raising block. -/
theorem create_session_commit_or_rollback_witness :
    (SessionEnv.mk () none none none : SessionEnv Unit Nat).commitFails = none ∧
    create_session (SessionEnv.mk () none none none)
        (fun _ => (Except.ok 7 : Except Nat Nat)) =
      ([SEvent.newSession, SEvent.commit, SEvent.close], Except.ok 7) ∧
    create_session (SessionEnv.mk () none none none)
        (fun _ => (Except.error 3 : Except Nat Nat)) =
      ([SEvent.newSession, SEvent.rollback, SEvent.close], Except.error 3) := by
  refine ⟨rfl, ?_, ?_⟩
  · exact create_session_commit_or_rollback (SessionEnv.mk () none none none)
      (fun _ => Except.ok 7) rfl rfl rfl
  · exact create_session_commit_or_rollback (SessionEnv.mk () none none none)
      (fun _ => Except.error 3) rfl rfl rfl

/-- Embedding of `find_session_idx` (src/airflow/utils/session.py lines 43-52):
a Python signature is the ordered list of parameter names; `tuple(func_params)
.index("session")` returns the index of the first parameter named `session`,
and raises `ValueError(f"Function {func.__qualname__} has no `session`
argument")` when there is none. -/
def find_session_idx (qualname : String) (params : List String) : Except String Nat :=
  match params.findIdx? (fun p => p == "session") with
  | some i => Except.ok i
  | none => Except.error ("Function " ++ qualname ++ " has no `session` argument")

/-- Embedding of the inner `wrapper` produced by `provide_session`
(src/airflow/utils/session.py lines 64-72). A call site is a list of
positional argument values and a list of keyword arguments (name, value).

```
def wrapper(*args, **kwargs):
    if "session" in kwargs or session_args_idx < len(args):
        return func(*args, **kwargs)
    else:
        with create_session() as session:
            return func(*args, session=session, **kwargs)
```

The result pairs the session events issued by the wrapper itself with the
outcome the caller observes. -/
def wrapper {V E A : Type} (session_args_idx : Nat)
    (func : List V → List (String × V) → Except E A)
    (env : SessionEnv V E) (args : List V) (kwargs : List (String × V)) :
    List SEvent × Except E A :=
  if kwargs.any (fun p => p.1 == "session") || decide (session_args_idx < args.length) then
    ([], func args kwargs)
  else
    create_session env (fun s => func args (("session", s) :: kwargs))

/-- Embedding of the decorator `provide_session`
(src/airflow/utils/session.py lines 55-72): at wrap (decoration) time it runs
`find_session_idx(func)`; if that raises, decoration fails with that error and
no wrapper is produced; otherwise the wrapper closed over the found index is
returned. -/
def provide_session {V E A : Type} (qualname : String) (params : List String)
    (func : List V → List (String × V) → Except E A) :
    Except String
      (SessionEnv V E → List V → List (String × V) → List SEvent × Except E A) :=
  match find_session_idx qualname params with
  | Except.ok idx => Except.ok (wrapper idx func)
  | Except.error msg => Except.error msg

/-- C2: when the call already supplies a unit-of-work — by the keyword name
`session` or positionally at the declared slot index — the wrapper calls the
operation with the call's arguments unchanged and issues no session events
(in particular it opens no new session). -/
theorem wrapper_passthrough {V E A : Type} (idx : Nat)
    (func : List V → List (String × V) → Except E A) (env : SessionEnv V E)
    (args : List V) (kwargs : List (String × V))
    (h : kwargs.any (fun p => p.1 == "session") = true ∨ idx < args.length) :
    wrapper idx func env args kwargs = ([], func args kwargs) := by
  unfold wrapper
  rcases h with h | h
  · rw [h]
    simp
  · rw [if_pos]
    simp [h]

/-- Witness for C2: a keyword call and a positional call, both supplying a
session value, are passed through unchanged with no session events. -/
theorem wrapper_passthrough_witness :
    ((([("session", 5)] : List (String × Nat)).any (fun p => p.1 == "session") = true ∨
        (0 : Nat) < ([] : List Nat).length) ∧
      wrapper 0 (fun _ _ => (Except.ok 1 : Except Nat Nat))
        (SessionEnv.mk 9 none none none) [] [("session", 5)] = ([], Except.ok 1)) ∧
    ((([] : List (String × Nat)).any (fun p => p.1 == "session") = true ∨
        (0 : Nat) < ([42] : List Nat).length) ∧
      wrapper 0 (fun _ _ => (Except.ok 2 : Except Nat Nat))
        (SessionEnv.mk 9 none none none) [42] [] = ([], Except.ok 2)) := by
  refine ⟨⟨Or.inl (by decide), ?_⟩, ⟨Or.inr (by decide), ?_⟩⟩
  · exact wrapper_passthrough 0 (fun _ _ => Except.ok 1) (SessionEnv.mk 9 none none none)
      [] [("session", 5)] (Or.inl (by decide))
  · exact wrapper_passthrough 0 (fun _ _ => Except.ok 2) (SessionEnv.mk 9 none none none)
      [42] [] (Or.inr (by decide))

/-- C3: when no unit-of-work is supplied (no `session` keyword, and fewer
positional arguments than the slot index requires), a well-behaved
environment, and an operation returning `v` when invoked with the fresh
session injected by the keyword name `session`: the wrapper opens exactly one
new session, commits it, closes it exactly once, and returns `v`. The trace
equality fixes the event multiset, and the count conjuncts state the
"exactly once" facts explicitly. -/
theorem wrapper_opens_one_session {V E A : Type} (idx : Nat)
    (func : List V → List (String × V) → Except E A) (env : SessionEnv V E)
    (args : List V) (kwargs : List (String × V)) (v : A)
    (hkw : kwargs.any (fun p => p.1 == "session") = false)
    (hpos : args.length ≤ idx)
    (hc : env.commitFails = none) (hcl : env.closeFails = none)
    (hf : func args (("session", env.mkSession) :: kwargs) = Except.ok v) :
    wrapper idx func env args kwargs =
        ([SEvent.newSession, SEvent.commit, SEvent.close], Except.ok v) ∧
      (wrapper idx func env args kwargs).1.count SEvent.newSession = 1 ∧
      (wrapper idx func env args kwargs).1.count SEvent.close = 1 := by
  have hmain : wrapper idx func env args kwargs =
      ([SEvent.newSession, SEvent.commit, SEvent.close], Except.ok v) := by
    unfold wrapper
    rw [hkw]
    have hlt : decide (idx < args.length) = false := by
      simp [Nat.not_lt.mpr hpos]
    rw [hlt]
    simp only [Bool.or_false, if_neg Bool.false_ne_true]
    unfold create_session
    simp only [hf, hc, hcl]
    rfl
  refine ⟨hmain, ?_, ?_⟩ <;> rw [hmain] <;> rfl

/-- Witness for C3: a concrete call with no session supplied: one session is
opened, committed, and closed once. -/
theorem wrapper_opens_one_session_witness :
    (([("retries", 2)] : List (String × Nat)).any (fun p => p.1 == "session") = false ∧
      ([10] : List Nat).length ≤ 1 ∧
      (SessionEnv.mk 99 none none none : SessionEnv Nat Nat).commitFails = none) ∧
    wrapper 1 (fun _ kw => (Except.ok kw.length : Except Nat Nat))
        (SessionEnv.mk 99 none none none) [10] [("retries", 2)] =
      ([SEvent.newSession, SEvent.commit, SEvent.close], Except.ok 2) := by
  refine ⟨⟨by decide, by decide, rfl⟩, ?_⟩
  exact (wrapper_opens_one_session 1 (fun _ kw => Except.ok kw.length)
    (SessionEnv.mk 99 none none none) [10] [("retries", 2)] 2
    (by decide) (by decide) rfl rfl rfl).1

/-- C4: wrapping an operation whose declared signature has no parameter
named `session` fails at decoration time: `provide_session` returns the
configuration error naming the operation's qualified name, and no wrapper is
produced, so the failure is independent of (and prior to) any call. -/
theorem provide_session_wrap_time_error {V E A : Type} (qualname : String)
    (params : List String) (func : List V → List (String × V) → Except E A)
    (h : "session" ∉ params) :
    provide_session qualname params func =
      Except.error ("Function " ++ qualname ++ " has no `session` argument") := by
  unfold provide_session find_session_idx
  have hnone : params.findIdx? (fun p => p == "session") = none := by
    rw [List.findIdx?_eq_none_iff]
    intro x hx
    rcases eq_or_ne x "session" with rfl | hne
    · exact absurd hx h
    · simp [hne]
  rw [hnone]

/-- Witness for C4: wrapping a function with parameters `(bucket, prefix)`
fails at decoration time with the error naming the function. -/
theorem provide_session_wrap_time_error_witness :
    "session" ∉ ["bucket", "prefix"] ∧
    provide_session "GoogleCloudStorageHook.list" ["bucket", "prefix"]
        (fun _ _ => (Except.ok 0 : Except Nat Nat)) =
      (Except.error
        ("Function " ++ "GoogleCloudStorageHook.list" ++ " has no `session` argument") :
        Except String (SessionEnv Nat Nat → List Nat → List (String × Nat) →
          List SEvent × Except Nat Nat)) := by
  refine ⟨by decide, ?_⟩
  exact provide_session_wrap_time_error "GoogleCloudStorageHook.list" ["bucket", "prefix"]
    (fun _ _ => Except.ok 0) (by decide)

/-- Python argument values as passed to a `provide_session`-wrapped operation:
`None`, a session object (identified by a number), or any other value. -/
inductive PyVal where
  | pyNone
  | sessionV (sid : Nat)
  | intV (n : Int)
deriving DecidableEq, Repr

/-- C10: a call that explicitly passes `session=None` — by the keyword
`session`, or positionally with the slot index covered and `None` at that
slot — is treated as already supplying the unit-of-work: the wrapper issues
no session events and invokes the operation with the given arguments
(including the `None`) unchanged. The condition in the source tests only key
presence and positional arity, never the value. -/
theorem wrapper_none_passthrough {E A : Type} (idx : Nat)
    (func : List PyVal → List (String × PyVal) → Except E A) (env : SessionEnv PyVal E)
    (args : List PyVal) (kwargs : List (String × PyVal))
    (h : ("session", PyVal.pyNone) ∈ kwargs ∨
      (idx < args.length ∧ args.getD idx (PyVal.sessionV 0) = PyVal.pyNone)) :
    wrapper idx func env args kwargs = ([], func args kwargs) := by
  unfold wrapper
  rcases h with h | ⟨h, _⟩
  · have hany : kwargs.any (fun p => p.1 == "session") = true := by
      rw [List.any_eq_true]
      exact ⟨("session", PyVal.pyNone), h, by decide⟩
    rw [hany]
    simp
  · rw [if_pos]
    simp [h]

/-- Witness for C10: `session=None` passed by keyword, and `None` passed at
the positional session slot; in both calls no session events are issued and
the operation receives the call unchanged. -/
theorem wrapper_none_passthrough_witness :
    ((("session", PyVal.pyNone) ∈ [("session", PyVal.pyNone)] ∨
        ((0 : Nat) < ([] : List PyVal).length ∧
          ([] : List PyVal).getD 0 (PyVal.sessionV 0) = PyVal.pyNone)) ∧
      wrapper 0 (fun _ kw => (Except.ok kw : Except Nat (List (String × PyVal))))
          (SessionEnv.mk (PyVal.sessionV 1) none none none) [] [("session", PyVal.pyNone)] =
        ([], Except.ok [("session", PyVal.pyNone)])) ∧
    ((("session", PyVal.pyNone) ∈ ([] : List (String × PyVal)) ∨
        ((0 : Nat) < [PyVal.pyNone].length ∧
          [PyVal.pyNone].getD 0 (PyVal.sessionV 0) = PyVal.pyNone)) ∧
      wrapper 0 (fun a _ => (Except.ok a : Except Nat (List PyVal)))
          (SessionEnv.mk (PyVal.sessionV 1) none none none) [PyVal.pyNone] [] =
        ([], Except.ok [PyVal.pyNone])) := by
  refine ⟨⟨Or.inl (by decide), ?_⟩, ⟨Or.inr (by decide), ?_⟩⟩
  · exact wrapper_none_passthrough 0 (fun _ kw => Except.ok kw)
      (SessionEnv.mk (PyVal.sessionV 1) none none none) [] [("session", PyVal.pyNone)]
      (Or.inl (by decide))
  · exact wrapper_none_passthrough 0 (fun a _ => Except.ok a)
      (SessionEnv.mk (PyVal.sessionV 1) none none none) [PyVal.pyNone] []
      (Or.inr (by decide))

/-- Counterexample for C8: the block raises exception `0`, and `rollback`
itself raises exception `1`. The caller observes exception `1`, not the
original exception `0`: in the source's `except Exception: session.rollback();
raise`, an exception raised by `rollback()` leaves the `except` clause before
the bare `raise` runs, so it replaces the pending original exception. -/
theorem create_session_rollback_masks_cex :
    (create_session (SessionEnv.mk () none (some 1) none)
        (fun _ => (Except.error 0 : Except Nat Nat))).2 = Except.error 1 ∧
      (create_session (SessionEnv.mk () none (some 1) none)
        (fun _ => (Except.error 0 : Except Nat Nat))).2 ≠ Except.error 0 := by
  refine ⟨rfl, fun h => ?_⟩
  have h1 : (Except.error 1 : Except Nat Nat) = Except.error 0 := h
  exact one_ne_zero (Except.error.inj h1)

/-- C8 amended: if the block raises `e` and `rollback` succeeds the caller
observes `e` unchanged, but if `rollback` itself raises `r` the caller
observes `r` — the rollback failure replaces the pending original exception
(which survives only as chained context) — and `close` still runs last. -/
theorem create_session_rollback_failure_propagates {V E A : Type}
    (env : SessionEnv V E) (block : V → Except E A) (e : E)
    (hb : block env.mkSession = Except.error e) (hcl : env.closeFails = none) :
    create_session env block =
      ([SEvent.newSession, SEvent.rollback, SEvent.close],
        Except.error (env.rollbackFails.getD e)) := by
  unfold create_session
  simp only [hb, hcl]
  rfl

/-- Witness for C8 (amended): concretely, with rollback raising `1` the
caller sees `1`; with rollback succeeding the caller sees the block's `0`. -/
theorem create_session_rollback_failure_propagates_witness :
    ((fun _ => (Except.error 0 : Except Nat Nat)) () = Except.error 0 ∧
      create_session (SessionEnv.mk () none (some 1) none)
          (fun _ => (Except.error 0 : Except Nat Nat)) =
        ([SEvent.newSession, SEvent.rollback, SEvent.close], Except.error 1)) ∧
    create_session (SessionEnv.mk () none none none)
        (fun _ => (Except.error 0 : Except Nat Nat)) =
      ([SEvent.newSession, SEvent.rollback, SEvent.close], Except.error 0) := by
  refine ⟨⟨rfl, ?_⟩, ?_⟩
  · exact create_session_rollback_failure_propagates (SessionEnv.mk () none (some 1) none)
      (fun _ => Except.error 0) 0 rfl rfl
  · exact create_session_rollback_failure_propagates (SessionEnv.mk () none none none)
      (fun _ => Except.error 0) 0 rfl rfl

/-- Database dialect metadata as read from `session.connection().dialect`:
the dialect name and, for mysql, `server_version_info` (a version tuple of
arbitrary length, e.g. `(5, 7, 30)`). -/
structure Dialect where
  name : String
  server_version_info : List Nat
deriving DecidableEq, Repr

/-- Python tuple `a < b` on version tuples: lexicographic, a strict prefix is
smaller. -/
def tupleLt : List Nat → List Nat → Bool
  | _, [] => false
  | [], _ :: _ => true
  | a :: as, b :: bs => a < b || (a == b && tupleLt as bs)

/-- Python tuple `a >= b`, i.e. `not (a < b)`; this is the comparison
`dialect.server_version_info >= (5, 6)` in the source. -/
def tupleGe (a b : List Nat) : Bool := ! tupleLt a b

/-- The observable actions of `create_global_lock`: the lock statements it
executes on the session's connection, and the protected block running. -/
inductive GLEvent where
  | pgAdvisoryLock (lockId : Int)
  | pgAdvisoryUnlock (lockId : Int)
  | getLock (lockName : String) (timeout : Int)
  | releaseLock (lockName : String)
  | blockRun
deriving DecidableEq, Repr

/-- Embedding of the body of `create_global_lock`
(src/airflow/utils/session.py lines 75-107), given the dialect read from the
provided session's connection (the `@provide_session` provisioning itself is
the `wrapper`/`provide_session` embedding above).

Entry (inside `try`): if the dialect is postgresql, execute
`select PG_ADVISORY_LOCK(pg_lock_id);`; if it is mysql with
`server_version_info >= (5, 6)`, execute
`select GET_LOCK(lock_name, mysql_lock_timeout);`; if it is mssql, `pass`.
Then `yield None` runs the protected block. Exit (`finally`, whether or not
the block raised): the matching `PG_ADVISORY_UNLOCK` / `RELEASE_LOCK`
statement under the same conditions, and `pass` for mssql.

The `Bool` parameter (`_mysqlGetLockGranted`) models the result row of the
`GET_LOCK` statement (`true` = granted, `false` = timed out). The source
never binds or inspects the result of `session.connection().execute(...)`,
so this parameter does not occur in the body — which is exactly the
behaviour claims about lock timeouts are measured against. -/
def create_global_lock {E : Type} (dialect : Dialect) (pg_lock_id : Int)
    (lock_name : String) (mysql_lock_timeout : Int) (_mysqlGetLockGranted : Bool)
    (block : Except E Unit) : List GLEvent × Except E Unit :=
  let mysqlLocks : Bool :=
    dialect.name == "mysql" && tupleGe dialect.server_version_info [5, 6]
  let acquire : List GLEvent :=
    (if dialect.name == "postgresql" then [GLEvent.pgAdvisoryLock pg_lock_id] else []) ++
    (if mysqlLocks then [GLEvent.getLock lock_name mysql_lock_timeout] else [])
  let release : List GLEvent :=
    (if dialect.name == "postgresql" then [GLEvent.pgAdvisoryUnlock pg_lock_id] else []) ++
    (if mysqlLocks then [GLEvent.releaseLock lock_name] else [])
  (acquire ++ GLEvent.blockRun :: release, block)

/-- C5: on the postgresql backend, `create_global_lock` issues exactly one
advisory-lock acquire statement with the given id before the protected block
and exactly one release statement with the same id after it, whether the
block returns normally or raises (`block` is either outcome and passes
through unchanged). -/
theorem create_global_lock_postgresql {E : Type} (pg_lock_id : Int)
    (lock_name : String) (mysql_lock_timeout : Int) (granted : Bool)
    (block : Except E Unit) (d : Dialect) (hname : d.name = "postgresql") :
    create_global_lock d pg_lock_id lock_name mysql_lock_timeout granted block =
      ([GLEvent.pgAdvisoryLock pg_lock_id, GLEvent.blockRun,
        GLEvent.pgAdvisoryUnlock pg_lock_id], block) := by
  unfold create_global_lock
  rw [hname]
  rfl

/-- Witness for C5: the concrete postgresql dialect with a raising block:
acquire, block, release, and the exception passes through. -/
theorem create_global_lock_postgresql_witness :
    (Dialect.mk "postgresql" [13, 2]).name = "postgresql" ∧
    create_global_lock (Dialect.mk "postgresql" [13, 2]) 1 "init" 1800 true
        (Except.error 5 : Except Nat Unit) =
      ([GLEvent.pgAdvisoryLock 1, GLEvent.blockRun, GLEvent.pgAdvisoryUnlock 1],
        Except.error 5) := by
  refine ⟨rfl, ?_⟩
  exact create_global_lock_postgresql 1 "init" 1800 true (Except.error 5)
    (Dialect.mk "postgresql" [13, 2]) rfl

/-- C7: on a mysql backend with server version below `(5, 6)`, no lock
statements are issued on entry or exit — only the block runs — and the
behaviour coincides with the mssql no-op backend. -/
theorem create_global_lock_mysql_below_min {E : Type} (v w : List Nat)
    (pg_lock_id : Int) (lock_name : String) (mysql_lock_timeout : Int)
    (granted : Bool) (block : Except E Unit)
    (hv : tupleLt v [5, 6] = true) :
    create_global_lock (Dialect.mk "mysql" v) pg_lock_id lock_name mysql_lock_timeout
        granted block = ([GLEvent.blockRun], block) ∧
    create_global_lock (Dialect.mk "mysql" v) pg_lock_id lock_name mysql_lock_timeout
        granted block =
      create_global_lock (Dialect.mk "mssql" w) pg_lock_id lock_name mysql_lock_timeout
        granted block := by
  have h1 : create_global_lock (Dialect.mk "mysql" v) pg_lock_id lock_name
      mysql_lock_timeout granted block = ([GLEvent.blockRun], block) := by
    unfold create_global_lock tupleGe
    rw [hv]
    rfl
  exact ⟨h1, by rw [h1]; rfl⟩

/-- Witness for C7: mysql at version `(5, 5, 8)` (below the `(5, 6)` minimum)
issues no lock statements and matches the mssql no-op. -/
theorem create_global_lock_mysql_below_min_witness :
    tupleLt [5, 5, 8] [5, 6] = true ∧
    create_global_lock (Dialect.mk "mysql" [5, 5, 8]) 1 "init" 1800 true
        (Except.ok () : Except Nat Unit) = ([GLEvent.blockRun], Except.ok ()) := by
  refine ⟨by decide, ?_⟩
  exact (create_global_lock_mysql_below_min [5, 5, 8] [14, 0] 1 "init" 1800 true
    (Except.ok ()) (by decide)).1

/-- C6 (code bug record): on mysql at version `(5, 7, 30)` (at/above the
minimum), with `GET_LOCK('init', 1)` timing out (result `0`, modelled by
`mysqlGetLockGranted = false`): the source discards the result of
`session.connection().execute(...)`, so no lock-timeout error is surfaced,
the protected block runs anyway, and the outcome is the block's own normal
return — and the behaviour is identical when the lock IS granted. This
contradicts the claim that a timeout is surfaced as an error and that the
block does not execute. -/
theorem create_global_lock_mysql_timeout_ignored :
    create_global_lock (Dialect.mk "mysql" [5, 7, 30]) 1 "init" 1 false
        (Except.ok () : Except Nat Unit) =
      ([GLEvent.getLock "init" 1, GLEvent.blockRun, GLEvent.releaseLock "init"],
        Except.ok ()) ∧
    GLEvent.blockRun ∈ (create_global_lock (Dialect.mk "mysql" [5, 7, 30]) 1 "init" 1 false
        (Except.ok () : Except Nat Unit)).1 ∧
    create_global_lock (Dialect.mk "mysql" [5, 7, 30]) 1 "init" 1 false
        (Except.ok () : Except Nat Unit) =
      create_global_lock (Dialect.mk "mysql" [5, 7, 30]) 1 "init" 1 true
        (Except.ok () : Except Nat Unit) := by
  refine ⟨rfl, ?_, rfl⟩
  decide

/-- The left curly-brace character (written by code point to keep JSON
grammar characters explicit). -/
def braceL : Char := Char.ofNat 123

/-- The right curly-brace character. -/
def braceR : Char := Char.ofNat 125

/-- JSON insignificant whitespace characters. -/
def jsonWs (c : Char) : Bool := c == ' ' || c == '\t' || c == '\n' || c == '\r'

/-- Drop leading JSON whitespace. -/
def skipWs : List Char → List Char
  | [] => []
  | c :: cs => if jsonWs c then skipWs cs else c :: cs

/-- A parsed JSON document. Numbers keep their source lexeme: the validator
claims depend only on parseability, not numeric value. -/
inductive JsonV where
  | jnull
  | jbool (b : Bool)
  | jnum (lexeme : String)
  | jstr (s : String)
  | jarr (elems : List JsonV)
  | jobj (fields : List (String × JsonV))

/-- Hexadecimal digit test for `\u` escapes. -/
def isHexDigitC (c : Char) : Bool :=
  c.isDigit || (97 ≤ c.toNat && c.toNat ≤ 102) || (65 ≤ c.toNat && c.toNat ≤ 70)

/-- Scan a JSON string body after the opening quote, up to and past the
closing quote: escapes `\" \\ \/ \b \f \n \r \t \uXXXX` are accepted, raw
control characters below `0x20` are rejected (strict mode). Escape decoding
is simplified (the scanned content is approximate); acceptance follows the
grammar. Fuel bounds the recursion. -/
def scanJsonString : Nat → List Char → Option (String × List Char)
  | 0, _ => none
  | _ + 1, [] => none
  | fuel + 1, c :: cs =>
    if c == '"' then some ("", cs)
    else if c == '\\' then
      match cs with
      | [] => none
      | e :: cs2 =>
        if e == 'u' then
          match cs2 with
          | h1 :: h2 :: h3 :: h4 :: cs3 =>
            if isHexDigitC h1 && isHexDigitC h2 && isHexDigitC h3 && isHexDigitC h4 then
              (scanJsonString fuel cs3).map (fun p => (p.1, p.2))
            else none
          | _ => none
        else if e == '"' || e == '\\' || e == '/' || e == 'b' || e == 'f' ||
            e == 'n' || e == 'r' || e == 't' then
          (scanJsonString fuel cs2).map (fun p => (String.mk [e] ++ p.1, p.2))
        else none
    else if c.toNat < 32 then none
    else (scanJsonString fuel cs).map (fun p => (String.mk [c] ++ p.1, p.2))

/-- Split a character list into its leading run of decimal digits and the
rest. -/
def takeDigits : List Char → List Char × List Char
  | [] => ([], [])
  | c :: cs =>
    if c.isDigit then
      let p := takeDigits cs
      (c :: p.1, p.2)
    else ([], c :: cs)

/-- Consume an optional JSON fraction part (`.` followed by one or more
digits); `none` on a malformed fraction. -/
def scanFrac : List Char → Option (List Char)
  | '.' :: cs =>
    match takeDigits cs with
    | ([], _) => none
    | (_ :: _, rest) => some rest
  | cs => some cs

/-- Consume an optional JSON exponent part (`e`/`E`, optional sign, one or
more digits); `none` on a malformed exponent. -/
def scanExp : List Char → Option (List Char)
  | [] => some []
  | c :: cs =>
    if c == 'e' || c == 'E' then
      let cs2 := match cs with
        | s :: r => if s == '+' || s == '-' then r else s :: r
        | [] => []
      match takeDigits cs2 with
      | ([], _) => none
      | (_ :: _, rest) => some rest
    else some (c :: cs)

/-- Consume a JSON number (also the `-Infinity` constant Python's `json`
accepts), returning the unconsumed rest. Leading zeros are rejected as in the
JSON grammar. -/
def scanNumberRest (cs : List Char) : Option (List Char) :=
  match cs with
  | '-' :: 'I' :: 'n' :: 'f' :: 'i' :: 'n' :: 'i' :: 't' :: 'y' :: r => some r
  | _ =>
    let cs1 := match cs with
      | '-' :: r => r
      | _ => cs
    match cs1 with
    | [] => none
    | d :: r =>
      if d == '0' then (scanFrac r).bind scanExp
      else if d.isDigit then (scanFrac (takeDigits r).2).bind scanExp
      else none

/-- Consume a JSON number and return its lexeme with the rest. -/
def scanNumber (cs : List Char) : Option (String × List Char) :=
  match scanNumberRest cs with
  | none => none
  | some rest => some (String.mk (cs.take (cs.length - rest.length)), rest)

mutual

/-- Parse one JSON value from the input (leading whitespace allowed),
returning it with the unconsumed rest. Models the acceptance behaviour of
Python's `json.loads` scanner, including its `NaN`/`Infinity` constants.
Fuel bounds the mutual recursion. -/
def parseJsonValue : Nat → List Char → Option (JsonV × List Char)
  | 0, _ => none
  | fuel + 1, cs0 =>
    match skipWs cs0 with
    | [] => none
    | c :: cs =>
      if c == 'n' then
        match cs with
        | 'u' :: 'l' :: 'l' :: r => some (JsonV.jnull, r)
        | _ => none
      else if c == 't' then
        match cs with
        | 'r' :: 'u' :: 'e' :: r => some (JsonV.jbool true, r)
        | _ => none
      else if c == 'f' then
        match cs with
        | 'a' :: 'l' :: 's' :: 'e' :: r => some (JsonV.jbool false, r)
        | _ => none
      else if c == 'N' then
        match cs with
        | 'a' :: 'N' :: r => some (JsonV.jnum "NaN", r)
        | _ => none
      else if c == 'I' then
        match cs with
        | 'n' :: 'f' :: 'i' :: 'n' :: 'i' :: 't' :: 'y' :: r =>
          some (JsonV.jnum "Infinity", r)
        | _ => none
      else if c == '"' then
        (scanJsonString (cs.length + 1) cs).map (fun p => (JsonV.jstr p.1, p.2))
      else if c == '[' then
        match skipWs cs with
        | ']' :: r => some (JsonV.jarr [], r)
        | cs2 => parseJsonElems fuel cs2
      else if c == braceL then
        match skipWs cs with
        | [] => none
        | c2 :: r =>
          if c2 == braceR then some (JsonV.jobj [], r)
          else parseJsonMembers fuel (c2 :: r)
      else
        (scanNumber (c :: cs)).map (fun p => (JsonV.jnum p.1, p.2))

/-- Parse the elements of a non-empty JSON array (after `[`). -/
def parseJsonElems : Nat → List Char → Option (JsonV × List Char)
  | 0, _ => none
  | fuel + 1, cs =>
    match parseJsonValue fuel cs with
    | none => none
    | some (v, r) => parseJsonElemsTail fuel [v] r

/-- Parse the `, value`* `]` tail of a JSON array. -/
def parseJsonElemsTail : Nat → List JsonV → List Char → Option (JsonV × List Char)
  | 0, _, _ => none
  | fuel + 1, acc, cs =>
    match skipWs cs with
    | ']' :: r => some (JsonV.jarr acc.reverse, r)
    | ',' :: r =>
      match parseJsonValue fuel r with
      | none => none
      | some (v, r2) => parseJsonElemsTail fuel (v :: acc) r2
    | _ => none

/-- Parse one `"key": value` member of a JSON object. -/
def parseJsonMember : Nat → List Char → Option (String × JsonV × List Char)
  | 0, _ => none
  | fuel + 1, cs =>
    match skipWs cs with
    | '"' :: r =>
      match scanJsonString (r.length + 1) r with
      | none => none
      | some (k, r2) =>
        match skipWs r2 with
        | ':' :: r3 =>
          match parseJsonValue fuel r3 with
          | none => none
          | some (v, r4) => some (k, v, r4)
        | _ => none
    | _ => none

/-- Parse the members of a non-empty JSON object (after the opening brace). -/
def parseJsonMembers : Nat → List Char → Option (JsonV × List Char)
  | 0, _ => none
  | fuel + 1, cs =>
    match parseJsonMember fuel cs with
    | none => none
    | some (k, v, r) => parseJsonMembersTail fuel [(k, v)] r

/-- Parse the `, "key": value`* and closing-brace tail of a JSON object. -/
def parseJsonMembersTail : Nat → List (String × JsonV) → List Char →
    Option (JsonV × List Char)
  | 0, _, _ => none
  | fuel + 1, acc, cs =>
    match skipWs cs with
    | [] => none
    | c :: r =>
      if c == braceR then some (JsonV.jobj acc.reverse, r)
      else if c == ',' then
        match parseJsonMember fuel r with
        | none => none
        | some (k, v, r2) => parseJsonMembersTail fuel ((k, v) :: acc) r2
      else none

end

/-- Model of the external `json.loads` used by `ValidJson`: `some doc` when
the whole input is one JSON document (with surrounding whitespace), `none`
when parsing raises `JSONDecodeError`. In particular the empty string is not
a JSON document. -/
def json_loads (s : String) : Option JsonV :=
  let cs := s.toList
  match parseJsonValue (cs.length + 1) cs with
  | some (v, rest) => if skipWs rest = [] then some v else none
  | none => none

/-- Embedding of `ValidJson.__call__` (src/airflow/www/validators.py lines
74-80): the field's data is `none` for a missing value or `some s` for text
`s`; the body runs only under Python's `if field.data:` truthiness test, so a
missing or empty value is accepted without parsing; otherwise a parse failure
raises `ValidationError` with the configured or default message (message
interpolation detail elided — only whether an error is raised is modelled). -/
def ValidJson_call (message : Option String) (data : Option String) :
    Except String Unit :=
  match data with
  | none => Except.ok ()
  | some s =>
    if s = "" then Except.ok ()
    else
      match json_loads s with
      | some _ => Except.ok ()
      | none => Except.error (message.getD "JSON Validation Error")

/-- Counterexample for C9: the empty string is not parseable as a JSON
document, yet `ValidJson` accepts it — `if field.data:` is false for the
empty string, so the validator never parses it and raises no error,
contradicting "fails on every non-JSON content". -/
theorem ValidJson_empty_accepted_cex :
    json_loads "" = none ∧ ValidJson_call none (some "") = Except.ok () :=
  ⟨rfl, rfl⟩

/-- C9 amended: `ValidJson` raises a validation error exactly when the
field's textual content is truthy (present and non-empty) and not parseable
as a JSON document; a missing or empty value is accepted without parsing. -/
theorem ValidJson_error_iff (message : Option String) (data : Option String) :
    (∃ m, ValidJson_call message data = Except.error m) ↔
      ∃ s, data = some s ∧ s ≠ "" ∧ json_loads s = none := by
  constructor
  · rintro ⟨m, hm⟩
    cases data with
    | none => simp [ValidJson_call] at hm
    | some s =>
      by_cases hs : s = ""
      · rw [hs] at hm
        simp [ValidJson_call] at hm
      · cases hj : json_loads s with
        | some v => simp [ValidJson_call, hs, hj] at hm
        | none => exact ⟨s, rfl, hs, hj⟩
  · rintro ⟨s, rfl, hs, hj⟩
    exact ⟨message.getD "JSON Validation Error", by simp [ValidJson_call, hs, hj]⟩
